import Mathlib

/-!
Shallow embedding of the core of `src/lambdas/api/classify_documents.py`
(class `DocumentClassifier` and the Lambda batch loop) and proofs of the
behavioural claims about it.

Python strings are modelled as `List Char`, Python `bytes` as `List Nat`
(byte values), raised exceptions as `Except` error values carrying a
message string, and the external collaborators (S3, pandas, the Gemini
model) as explicit environment records of functions.
-/

/-- Python strings are modelled as lists of characters. -/
abbrev PyStr := List Char

/-- Python byte strings are modelled as lists of byte values. -/
abbrev PyBytes := List Nat

/-- Convert a Lean string literal into the `PyStr` model. -/
def s2l (s : String) : PyStr := s.data

/-- The opening-brace character (code point 123). -/
def lbrace : Char := '\x7b'

/-- The closing-brace character (code point 125). -/
def rbrace : Char := '\x7d'

/-- Characters removed by Python `str.strip()` with no argument
(ASCII whitespace; all strings in this program are ASCII). -/
def pyIsSpace (c : Char) : Bool :=
  c = ' ' || c = '\t' || c = '\n' || c = '\r' || c = '\x0b' || c = '\x0c'

/-- Python `s.strip()`: drop whitespace from both ends. -/
def pyStrip (s : PyStr) : PyStr :=
  ((s.dropWhile pyIsSpace).reverse.dropWhile pyIsSpace).reverse

/-- Python `s.lower()` (ASCII case folding suffices for this program). -/
def pyLower (s : PyStr) : PyStr := s.map Char.toLower

/-- Python `s.find(c)`: index of the first occurrence, `none` models `-1`. -/
def pyFind (s : PyStr) (c : Char) : Option Nat := s.findIdx? (fun x => x = c)

/-- Python `s.rfind(c)`: index of the last occurrence, `none` models `-1`. -/
def pyRfind (s : PyStr) (c : Char) : Option Nat :=
  match s.reverse.findIdx? (fun x => x = c) with
  | some r => some (s.length - 1 - r)
  | none => none

/-- Python slice `s[a:b]` for `0 ≤ a`, clamped like Python slicing. -/
def pySlice (s : PyStr) (a b : Nat) : PyStr := (s.drop a).take (b - a)

/-- The module-level `DOCUMENT_TYPES` list (lines 23-28). -/
def DOCUMENT_TYPES : List PyStr :=
  [s2l ("Loss Run"), s2l ("ACORD form"), s2l ("Supplemental forms"), s2l ("Mod sheet")]

/-- The `"Unknown"` sentinel label. -/
def unknownLabel : PyStr := s2l ("Unknown")

/-- The five values a classification can take: the four document types
plus the `"Unknown"` sentinel. -/
def fiveLabels : List PyStr := DOCUMENT_TYPES ++ [unknownLabel]

/-- Keyword group (a) of `_fallback_parsing` (line 467). -/
def lossRunWords : List PyStr :=
  [s2l ("loss run"), s2l ("loss"), s2l ("claims"), s2l ("history")]

/-- Keyword group (b) of `_fallback_parsing` (line 469). -/
def acordWords : List PyStr := [s2l ("acord"), s2l ("form")]

/-- Keyword group (c) of `_fallback_parsing` (line 471). -/
def supplementalWords : List PyStr :=
  [s2l ("supplemental"), s2l ("endorsement"), s2l ("rider")]

/-- Keyword group (d) of `_fallback_parsing` (line 473). -/
def modWords : List PyStr := [s2l ("mod"), s2l ("modification"), s2l ("rating")]

/-- Python substring test `needle in hay`. -/
def isSubstring (needle : PyStr) : PyStr → Bool
  | [] => needle.isEmpty
  | c :: t => needle.isPrefixOf (c :: t) || isSubstring needle t

/-- Python `any(word in response_lower for word in words)`:
substring containment of any keyword of the group. -/
def containsAnyWord (words : List PyStr) (s : PyStr) : Bool :=
  words.any (fun w => isSubstring w s)

/-- Embedding of `DocumentClassifier._fallback_parsing` (lines 460-480).
The Python method returns the dict `{"classification": c}`; we model the
value of its single key. -/
def _fallback_parsing (response : PyStr) : PyStr :=
  let response_lower := pyLower response
  if containsAnyWord lossRunWords response_lower then s2l ("Loss Run")
  else if containsAnyWord acordWords response_lower then s2l ("ACORD form")
  else if containsAnyWord supplementalWords response_lower then s2l ("Supplemental forms")
  else if containsAnyWord modWords response_lower then s2l ("Mod sheet")
  else s2l ("Unknown")

/-- JSON whitespace accepted by `json.loads` between tokens. -/
def jsonIsWs (c : Char) : Bool := c = ' ' || c = '\t' || c = '\n' || c = '\r'

/-- Skip JSON whitespace. -/
def jsonSkipWs : PyStr → PyStr
  | [] => []
  | c :: cs => if jsonIsWs c then jsonSkipWs cs else c :: cs

/-- Single-character JSON string escapes (everything `json.loads`
accepts after a backslash except `\uXXXX`, handled separately). -/
def jsonEsc (c : Char) : Option Char :=
  if c = '"' then some '"'
  else if c = '\\' then some '\\'
  else if c = '/' then some '/'
  else if c = 'n' then some '\n'
  else if c = 't' then some '\t'
  else if c = 'r' then some '\r'
  else if c = 'b' then some '\x08'
  else if c = 'f' then some '\x0c'
  else none

/-- Value of a hexadecimal digit, `none` for other characters. -/
def hexVal (c : Char) : Option Nat :=
  if '0' ≤ c && c ≤ '9' then some (c.toNat - 48)
  else if 'a' ≤ c && c ≤ 'f' then some (c.toNat - 87)
  else if 'A' ≤ c && c ≤ 'F' then some (c.toNat - 55)
  else none

/-- High-surrogate code unit test. -/
def isHighSurrogate (n : Nat) : Bool := 0xD800 ≤ n && n ≤ 0xDBFF

/-- Low-surrogate code unit test. -/
def isLowSurrogate (n : Nat) : Bool := 0xDC00 ≤ n && n ≤ 0xDFFF

/-- Stand-in for a lone surrogate decoded from a `\uXXXX` escape:
Python's `str` holds lone surrogates, Lean's `Char` cannot.  The
stand-in is observationally safe here: a decoded string containing it
differs from every ASCII string, and the interpreter only ever compares
decoded strings against the ASCII strings of `DOCUMENT_TYPES`, so both
the stand-in and a genuine lone surrogate fail those comparisons
alike. -/
def surrogateStandIn : Char := Char.ofNat 0xFFFD

/-- Fuelled body of a JSON string literal after the opening quote;
returns the decoded content and the remainder after the closing quote.
As in `json.loads` (default `strict=True`): raw control characters
below U+0020 are rejected, `\uXXXX` escapes are decoded, and a
high-surrogate escape followed by a low-surrogate escape combines into
one scalar.  Each step consumes at least one character, so fuel equal
to the length suffices. -/
def jsonStrBodyAux : Nat → PyStr → Option (PyStr × PyStr)
  | 0, _ => none
  | fuel+1, s =>
    match s with
    | [] => none
    | c :: cs =>
      if c = '"' then some ([], cs)
      else if c = '\\' then
        match cs with
        | [] => none
        | e :: cs2 =>
          if e = 'u' then
            match cs2 with
            | h1 :: h2 :: h3 :: h4 :: cs3 =>
              match hexVal h1, hexVal h2, hexVal h3, hexVal h4 with
              | some a, some b, some c1, some d1 =>
                let n := a * 4096 + b * 256 + c1 * 16 + d1
                if isHighSurrogate n then
                  match cs3 with
                  | '\\' :: 'u' :: g1 :: g2 :: g3 :: g4 :: cs4 =>
                    match hexVal g1, hexVal g2, hexVal g3, hexVal g4 with
                    | some a2, some b2, some c2, some d2 =>
                      let m := a2 * 4096 + b2 * 256 + c2 * 16 + d2
                      if isLowSurrogate m then
                        match jsonStrBodyAux fuel cs4 with
                        | some (s, rest) =>
                          some (Char.ofNat (0x10000 + (n - 0xD800) * 0x400 + (m - 0xDC00)) :: s,
                            rest)
                        | none => none
                      else
                        match jsonStrBodyAux fuel cs3 with
                        | some (s, rest) => some (surrogateStandIn :: s, rest)
                        | none => none
                    | _, _, _, _ =>
                      match jsonStrBodyAux fuel cs3 with
                      | some (s, rest) => some (surrogateStandIn :: s, rest)
                      | none => none
                  | _ =>
                    match jsonStrBodyAux fuel cs3 with
                    | some (s, rest) => some (surrogateStandIn :: s, rest)
                    | none => none
                else if isLowSurrogate n then
                  match jsonStrBodyAux fuel cs3 with
                  | some (s, rest) => some (surrogateStandIn :: s, rest)
                  | none => none
                else
                  match jsonStrBodyAux fuel cs3 with
                  | some (s, rest) => some (Char.ofNat n :: s, rest)
                  | none => none
              | _, _, _, _ => none
            | _ => none
          else
            match jsonEsc e, jsonStrBodyAux fuel cs2 with
            | some d, some (s, rest) => some (d :: s, rest)
            | _, _ => none
      else if c.toNat < 0x20 then none
      else
        match jsonStrBodyAux fuel cs with
        | some (s, rest) => some (c :: s, rest)
        | none => none

/-- Body of a JSON string literal after the opening quote. -/
def jsonStrBody (s : PyStr) : Option (PyStr × PyStr) :=
  jsonStrBodyAux (s.length + 1) s

/-- A JSON string literal, starting at the opening quote. -/
def jsonStringLit (s : PyStr) : Option (PyStr × PyStr) :=
  match s with
  | c :: cs => if c = '"' then jsonStrBody cs else none
  | [] => none

/-- The optional fraction part of a JSON number: `(some lexeme, rest)`
on success (`lexeme` empty when absent), `none` when a bare `.` has no
digits — in that case `json.loads` matches the shorter number and then
fails on the stray `.` at the delimiter, so both models reject. -/
def jsonFrac (s : PyStr) : Option PyStr × PyStr :=
  match s with
  | c :: t =>
    if c = '.' then
      let ds := t.takeWhile Char.isDigit
      if ds.isEmpty then (none, s) else (some (c :: ds), t.dropWhile Char.isDigit)
    else (some [], s)
  | [] => (some [], s)

/-- The optional exponent part of a JSON number, analogous to
`jsonFrac`. -/
def jsonExp (s : PyStr) : Option PyStr × PyStr :=
  match s with
  | c :: t =>
    if c = 'e' ∨ c = 'E' then
      match t with
      | d :: t2 =>
        if d = '+' ∨ d = '-' then
          let ds := t2.takeWhile Char.isDigit
          if ds.isEmpty then (none, s) else (some (c :: d :: ds), t2.dropWhile Char.isDigit)
        else
          let ds := t.takeWhile Char.isDigit
          if ds.isEmpty then (none, s) else (some (c :: ds), t.dropWhile Char.isDigit)
      | [] => (none, s)
    else (some [], s)
  | [] => (some [], s)

/-- A JSON number literal per the grammar used by `json.loads`
(`-?(0|[1-9][0-9]*)(\.[0-9]+)?([eE][+-]?[0-9]+)?`); returns the lexeme
and the remainder. -/
def jsonNumber (s : PyStr) : Option (PyStr × PyStr) :=
  let (negPart, s1) : PyStr × PyStr :=
    match s with
    | c :: t => if c = '-' then ([c], t) else ([], s)
    | [] => ([], s)
  match s1 with
  | [] => none
  | c :: t =>
    let (intPart, s2) : PyStr × PyStr :=
      if c = '0' then ([c], t)
      else (c :: t.takeWhile Char.isDigit, t.dropWhile Char.isDigit)
    if c.isDigit then
      match jsonFrac s2 with
      | (none, _) => none
      | (some fp, s3) =>
        match jsonExp s3 with
        | (none, _) => none
        | (some ep, s4) => some (negPart ++ intPart ++ fp ++ ep, s4)
    else none

/-- A parsed JSON value.  Numbers keep their lexeme: the interpreter
never uses a numeric value, only whether the value is a string. -/
inductive JsonVal where
  | str (s : PyStr)
  | num (lexeme : PyStr)
  | bool (b : Bool)
  | null
  | arr (items : List JsonVal)
  | obj (members : List (PyStr × JsonVal))

mutual

/-- One JSON value, after optional whitespace, as accepted by
`json.loads` with its default configuration: strings, objects, arrays,
`true`/`false`/`null`, numbers, and Python's non-standard constants
`NaN`, `Infinity` and `-Infinity`.  The fuel only bounds recursion
depth; each recursive call follows the consumption of at least one
character, so fuel exceeding twice the input length never runs out. -/
def jsonValue : Nat → PyStr → Option (JsonVal × PyStr)
  | 0, _ => none
  | fuel+1, s =>
    match jsonSkipWs s with
    | [] => none
    | c :: r =>
      if c = '"' then
        match jsonStrBody r with
        | some (str, rest) => some (.str str, rest)
        | none => none
      else if c = lbrace then
        match jsonSkipWs r with
        | d :: r2 =>
          if d = rbrace then some (.obj [], r2)
          else
            match jsonObjMembers fuel r with
            | some (ms, rest) => some (.obj ms, rest)
            | none => none
        | [] => none
      else if c = '[' then
        match jsonSkipWs r with
        | d :: r2 =>
          if d = ']' then some (.arr [], r2)
          else
            match jsonArrItems fuel r with
            | some (vs, rest) => some (.arr vs, rest)
            | none => none
        | [] => none
      else if (s2l ("true")).isPrefixOf (c :: r) then some (.bool true, (c :: r).drop 4)
      else if (s2l ("false")).isPrefixOf (c :: r) then some (.bool false, (c :: r).drop 5)
      else if (s2l ("null")).isPrefixOf (c :: r) then some (.null, (c :: r).drop 4)
      else if (s2l ("NaN")).isPrefixOf (c :: r) then some (.num (s2l ("NaN")), (c :: r).drop 3)
      else if (s2l ("Infinity")).isPrefixOf (c :: r) then
        some (.num (s2l ("Infinity")), (c :: r).drop 8)
      else if (s2l ("-Infinity")).isPrefixOf (c :: r) then
        some (.num (s2l ("-Infinity")), (c :: r).drop 9)
      else
        match jsonNumber (c :: r) with
        | some (lex, rest) => some (.num lex, rest)
        | none => none

/-- The members of a JSON object after the opening brace (nonempty
case), up to and including the closing brace.  A comma must be followed
by another `"key": value` member, so a trailing comma fails, exactly as
in `json.loads`. -/
def jsonObjMembers : Nat → PyStr → Option (List (PyStr × JsonVal) × PyStr)
  | 0, _ => none
  | fuel+1, s =>
    match jsonStringLit (jsonSkipWs s) with
    | none => none
    | some (k, r1) =>
      match jsonSkipWs r1 with
      | ':' :: r2 =>
        match jsonValue fuel r2 with
        | some (v, r3) =>
          match jsonSkipWs r3 with
          | ',' :: r4 =>
            match jsonObjMembers fuel r4 with
            | some (ms, rest) => some ((k, v) :: ms, rest)
            | none => none
          | d :: r4 => if d = rbrace then some ([(k, v)], r4) else none
          | [] => none
        | none => none
      | _ => none

/-- The items of a JSON array after the opening bracket (nonempty
case), up to and including the closing bracket. -/
def jsonArrItems : Nat → PyStr → Option (List JsonVal × PyStr)
  | 0, _ => none
  | fuel+1, s =>
    match jsonValue fuel s with
    | some (v, r) =>
      match jsonSkipWs r with
      | ',' :: r2 =>
        match jsonArrItems fuel r2 with
        | some (vs, rest) => some (v :: vs, rest)
        | none => none
      | ']' :: r2 => some ([v], r2)
      | _ => none
    | none => none

end

/-- Model of `json.loads` (line 437): one JSON document with nothing
but whitespace around it; trailing non-whitespace raises `Extra data`.
`none` models a raised `JSONDecodeError`. -/
def json_loads (s : PyStr) : Option JsonVal :=
  match jsonValue (2 * s.length + 2) s with
  | some (v, rest) => if jsonSkipWs rest = [] then some v else none
  | none => none

/-- Python `dict.get k dflt` on a dict built by `json.loads`:
duplicate keys keep the last occurrence. -/
def dictGetD (obj : List (PyStr × JsonVal)) (k : PyStr) (dflt : JsonVal) : JsonVal :=
  match obj.reverse.find? (fun p => p.1 == k) with
  | some p => p.2
  | none => dflt

/-- The `"classification"` key. -/
def classificationKey : PyStr := s2l ("classification")

/-- The candidate classification produced by the `try` block of
`_parse_classification_response` (lines 428-443) on the stripped text:
if both a `{` and a `}` occur, the brace-delimited slice is fed to
`json.loads` and `result.get("classification", "")` is the candidate.
`none` models a raised exception: `json.loads` failing on the slice, or
`.strip()` on a non-string value raising `AttributeError` (the slice
starts at a `{` when nonempty, so a successful parse is always an
object and `.get` itself never raises).  When a brace is missing,
`_fallback_parsing` supplies the candidate. -/
def candidateOfResponse (t : PyStr) : Option PyStr :=
  match pyFind t lbrace, pyRfind t rbrace with
  | some s, some e =>
    match json_loads (pySlice t s (e + 1)) with
    | some (.obj ms) =>
      match dictGetD ms classificationKey (.str []) with
      | .str c => some c
      | _ => none
    | some _ => none
    | none => none
  | _, _ => some (_fallback_parsing t)

/-- Embedding of `DocumentClassifier._parse_classification_response`
(lines 423-458).  The Python method returns `{"filename": filename,
"classification": c}`; we model the classification value.  The
`filename` argument is used only for logging.  The `except` handler
(lines 453-458) maps any exception to `"Unknown"`. -/
def _parse_classification_response (response_text : PyStr) (_filename : PyStr) : PyStr :=
  let t := pyStrip response_text
  match candidateOfResponse t with
  | none => unknownLabel
  | some cand =>
    let classification := pyStrip cand
    if DOCUMENT_TYPES.contains classification then classification else unknownLabel

/-- Text before the interpolated filename in the f-string of
`_build_classification_prompt` (lines 398-408). -/
def promptPre : PyStr := s2l ("\n        You are a document classification expert for insurance and risk management documents.\n        \n        Analyze the uploaded file and classify it into exactly one of these four categories:\n        \n        1. **Loss Run** - Documents containing loss history, claims data, or loss statistics\n        2. **ACORD form** - Standard insurance forms (ACORD 25, ACORD 28, etc.)\n        3. **Supplemental forms** - Additional forms, endorsements, or riders\n        4. **Mod sheet** - Experience modification worksheets or rating documents\n        \n        Filename: ")

/-- Text after the interpolated filename in the f-string of
`_build_classification_prompt` (lines 408-420); the doubled braces of the
f-string render as single braces. -/
def promptSuf : PyStr := s2l ("\n        \n        Instructions:\n        - Analyze the document content and filename\n        - Classify it into exactly one of the four categories above\n        \n        Respond with only a JSON object in this exact format:\n        \x7b\n            \"classification\": \"ONE_OF_THE_FOUR_TYPES\",\n        \x7d\n        \n        Do not include any other text, only the JSON object.\n        ")

/-- Embedding of `DocumentClassifier._build_classification_prompt`
(lines 394-421): the fixed template with the filename interpolated. -/
def _build_classification_prompt (filename : PyStr) : PyStr :=
  promptPre ++ filename ++ promptSuf

/-- The exact-format example output displayed by the prompt template
(from its opening brace to its closing brace, including the trailing
comma and the template's inner indentation), instantiated with a
category string in place of `ONE_OF_THE_FOUR_TYPES`. -/
def prompt_example_output (c : PyStr) : PyStr :=
  (s2l ("\x7b\n            \"classification\": \"")) ++ c ++ (s2l ("\",\n        \x7d"))

/-- Extension-to-content-type table of `_get_content_type`
(lines 247-254). -/
def content_types : List (PyStr × PyStr) :=
  [(s2l ("pdf"), s2l ("application/pdf")),
   (s2l ("xlsx"), s2l ("application/vnd.openxmlformats-officedocument.spreadsheetml.sheet")),
   (s2l ("xls"), s2l ("application/vnd.ms-excel")),
   (s2l ("csv"), s2l ("text/csv")),
   (s2l ("doc"), s2l ("application/msword")),
   (s2l ("docx"), s2l ("application/vnd.openxmlformats-officedocument.wordprocessingml.document"))]

/-- Python `s.split(sep)` for a single-character separator, accumulator
form. -/
def splitOnCharAux (sep : Char) : PyStr → PyStr → List PyStr
  | [], acc => [acc.reverse]
  | c :: t, acc =>
    if c = sep then acc.reverse :: splitOnCharAux sep t []
    else splitOnCharAux sep t (c :: acc)

/-- Python `s.split(sep)` for a single-character separator. -/
def splitOnChar (sep : Char) (s : PyStr) : List PyStr := splitOnCharAux sep s []

/-- Embedding of `DocumentClassifier._get_content_type` (lines 242-255):
map the lowercased final extension through the table, defaulting to
`application/octet-stream`. -/
def _get_content_type (filename : PyStr) : PyStr :=
  let extension : PyStr :=
    if filename.contains '.' then (splitOnChar '.' (pyLower filename)).getLastD []
    else []
  match content_types.lookup extension with
  | some ct => ct
  | none => s2l ("application/octet-stream")

/-- Continuation byte test for UTF-8 decoding. -/
def isUtf8Cont (b : Nat) : Bool := 0x80 ≤ b && b ≤ 0xBF

/-- One step of strict UTF-8 decoding as performed by Python
`bytes.decode('utf-8')`: decode the next scalar value, rejecting
invalid start bytes, truncated sequences, overlong encodings,
surrogates and values beyond U+10FFFF. -/
def utf8Step : PyBytes → Option (Char × PyBytes)
  | [] => none
  | b :: rest =>
    if b < 0x80 then some (Char.ofNat b, rest)
    else if 0xC2 ≤ b && b ≤ 0xDF then
      match rest with
      | c1 :: r =>
        if isUtf8Cont c1 then some (Char.ofNat ((b - 0xC0) * 0x40 + (c1 - 0x80)), r)
        else none
      | [] => none
    else if 0xE0 ≤ b && b ≤ 0xEF then
      match rest with
      | c1 :: c2 :: r =>
        let lo1 := if b = 0xE0 then 0xA0 else 0x80
        let hi1 := if b = 0xED then 0x9F else 0xBF
        if lo1 ≤ c1 && c1 ≤ hi1 && isUtf8Cont c2 then
          some (Char.ofNat ((b - 0xE0) * 0x1000 + (c1 - 0x80) * 0x40 + (c2 - 0x80)), r)
        else none
      | _ => none
    else if 0xF0 ≤ b && b ≤ 0xF4 then
      match rest with
      | c1 :: c2 :: c3 :: r =>
        let lo1 := if b = 0xF0 then 0x90 else 0x80
        let hi1 := if b = 0xF4 then 0x8F else 0xBF
        if lo1 ≤ c1 && c1 ≤ hi1 && isUtf8Cont c2 && isUtf8Cont c3 then
          some (Char.ofNat ((b - 0xF0) * 0x40000 + (c1 - 0x80) * 0x1000 + (c2 - 0x80) * 0x40 + (c3 - 0x80)), r)
        else none
      | _ => none
    else none

/-- Fuelled driver for UTF-8 decoding; each step consumes at least one
byte, so fuel equal to the byte count suffices. -/
def utf8DecodeAux : Nat → PyBytes → Option PyStr
  | _, [] => some []
  | 0, _ :: _ => none
  | fuel+1, l =>
    match utf8Step l with
    | some (c, rest) =>
      match utf8DecodeAux fuel rest with
      | some s => some (c :: s)
      | none => none
    | none => none

/-- Python `bs.decode('utf-8')`: `none` models a raised
`UnicodeDecodeError`. -/
def utf8Decode (bs : PyBytes) : Option PyStr := utf8DecodeAux bs.length bs


/-- One element of the `contents` list handed to the Gemini model: a
Python `str` (`text`), a Python `bytes` value (`blob`), or the file-like
object returned by the Gemini File API upload (`filehandle`). -/
inductive GeminiPart where
  | text (s : PyStr)
  | blob (b : PyBytes)
  | filehandle (display_name : PyStr)
deriving DecidableEq

/-- Whether a part is a plain string. -/
def GeminiPart.isText : GeminiPart → Bool
  | .text _ => true
  | _ => false

/-- Models Python `hasattr(item, "read")` on the values this program
puts into `contents`: `str` and `bytes` have no `read` attribute; the
object returned by the Gemini File API upload is file-like. -/
def hasReadAttr : GeminiPart → Bool
  | .text _ => false
  | .blob _ => false
  | .filehandle _ => true

/-- External collaborators used inside `_prepare_gemini_content`:
whether `import pandas` succeeds (line 317 raises `ImportError`
otherwise), the outcome of `pd.read_excel(...).to_csv(index=False)`
(line 318-319; `Except.error` models an exception raised by pandas,
which the `except ImportError` clause does not catch), and the outcome
of the Gemini File API upload (lines 303-307). -/
structure AdapterEnv where
  pandasAvailable : Bool
  readExcelCsv : PyBytes → Except PyStr PyStr
  uploadPdf : PyBytes → PyStr → Except PyStr PyStr

/-- The media types of the Excel branch (lines 311-314). -/
def xlsxMime : PyStr := s2l ("application/vnd.openxmlformats-officedocument.spreadsheetml.sheet")

/-- The legacy Excel media type. -/
def xlsMime : PyStr := s2l ("application/vnd.ms-excel")

/-- The PDF media type. -/
def pdfMime : PyStr := s2l ("application/pdf")

/-- The CSV media type. -/
def csvMime : PyStr := s2l ("text/csv")

/-- Message of the `ValueError` raised by the final safety check
(line 363). -/
def valueErrorMsg : PyStr := s2l ("Only PDF files can be uploaded; all other types must be text")

/-- Stand-in for the message of a raised `UnicodeDecodeError` (the real
message names the offending byte; no claim depends on its text). -/
def unicodeDecodeErrorMsg : PyStr := s2l ("UnicodeDecodeError")

/-- Wrapper text of the Excel branch (line 321). -/
def excelHeader (filename csv_text : PyStr) : PyStr :=
  (s2l ("The following CSV data is from an uploaded Excel file named '")) ++ filename ++ (s2l ("':\n\n")) ++ csv_text

/-- Wrapper text of the CSV branch (line 334). -/
def csvHeader (filename csv_text : PyStr) : PyStr :=
  (s2l ("The following CSV data is from file '")) ++ filename ++ (s2l ("':\n\n")) ++ csv_text

/-- Wrapper text of the text-file branch (line 344). -/
def textHeader (filename text_content : PyStr) : PyStr :=
  (s2l ("The following text is from file '")) ++ filename ++ (s2l ("':\n\n")) ++ text_content

/-- Python `filename.lower().endswith(('.txt', '.doc'))` (line 339). -/
def endsWithTxtOrDoc (filename : PyStr) : Bool :=
  (s2l (".txt")).isSuffixOf (pyLower filename) || (s2l (".doc")).isSuffixOf (pyLower filename)

/-- Cases 1-5 of `_prepare_gemini_content` (lines 300-355), before the
final safety check.  `Except.error` models an exception escaping the
branch: a pandas error in Case 2, or `UnicodeDecodeError` from the
decode in Case 3 (Case 4 catches its own decode error, lines 347-350). -/
def prepareCase (env : AdapterEnv) (file_content : PyBytes) (filename mime_type prompt : PyStr) :
    Except PyStr (List GeminiPart) :=
  if mime_type = pdfMime then
    match env.uploadPdf file_content filename with
    | .ok _ => .ok [.filehandle filename, .text prompt]
    | .error msg => .error msg
  else if mime_type = xlsxMime ∨ mime_type = xlsMime then
    if env.pandasAvailable then
      match env.readExcelCsv file_content with
      | .ok csv_text => .ok [.text (excelHeader filename csv_text), .text prompt]
      | .error msg => .error msg
    else .ok [.text prompt, .blob file_content]
  else if mime_type = csvMime then
    match utf8Decode file_content with
    | some csv_text => .ok [.text (csvHeader filename csv_text), .text prompt]
    | none => .error unicodeDecodeErrorMsg
  else if endsWithTxtOrDoc filename then
    match utf8Decode file_content with
    | some text_content => .ok [.text (textHeader filename text_content), .text prompt]
    | none => .ok [.text prompt, .blob file_content]
  else .ok [.text prompt, .blob file_content]

/-- The final safety check of `_prepare_gemini_content` (lines 357-365):
for non-PDF types, raise `ValueError` if any item has a `read`
attribute, otherwise pass the list through unchanged. -/
def finalSafetyCheck (mime_type : PyStr) (contents : List GeminiPart) :
    Except PyStr (List GeminiPart) :=
  if mime_type = pdfMime then .ok contents
  else if contents.any hasReadAttr then .error valueErrorMsg
  else .ok contents

/-- The whole `try` block of `_prepare_gemini_content` (lines 299-367). -/
def prepareInner (env : AdapterEnv) (file_content : PyBytes) (filename mime_type prompt : PyStr) :
    Except PyStr (List GeminiPart) :=
  match prepareCase env file_content filename mime_type prompt with
  | .ok contents => finalSafetyCheck mime_type contents
  | .error msg => .error msg

/-- The emergency fallback payload of the `except` handler (line 372). -/
def errorFallbackPayload (filename msg prompt : PyStr) : List GeminiPart :=
  [.text prompt, .text ((s2l ("Error processing file ")) ++ filename ++ (s2l (": ")) ++ msg)]

/-- Embedding of `DocumentClassifier._prepare_gemini_content`
(lines 295-372): the `try` block with its final safety check, and the
`except` handler returning the emergency fallback payload. -/
def _prepare_gemini_content (env : AdapterEnv) (file_content : PyBytes) (filename mime_type prompt : PyStr) :
    List GeminiPart :=
  match prepareInner env file_content filename mime_type prompt with
  | .ok contents => contents
  | .error msg => errorFallbackPayload filename msg prompt

/-- The prompt text between the interpolated filename and the displayed
exact-format example output. -/
def exampleSufA : PyStr := s2l ("\n        \n        Instructions:\n        - Analyze the document content and filename\n        - Classify it into exactly one of the four categories above\n        \n        Respond with only a JSON object in this exact format:\n        ")

/-- The prompt text after the displayed exact-format example output. -/
def exampleSufB : PyStr := s2l ("\n        \n        Do not include any other text, only the JSON object.\n        ")

/-- A concrete adapter environment for witnesses: pandas importable but
failing on every workbook, uploads succeeding. -/
def sampleAdapterEnv : AdapterEnv :=
  { pandasAvailable := true
    readExcelCsv := fun _ => .error (s2l ("pandas failure"))
    uploadPdf := fun _ _ => .ok (s2l ("handle")) }

set_option maxRecDepth 4096 in
/-- Splitting the prompt suffix around the displayed exact-format
example output (with the `ONE_OF_THE_FOUR_TYPES` placeholder). -/
theorem promptSuf_decomp :
    promptSuf = exampleSufA ++ prompt_example_output (s2l ("ONE_OF_THE_FOUR_TYPES")) ++ exampleSufB := by
  decide

/-- Characters of the stripped text are characters of the text. -/
theorem mem_of_mem_pyStrip (c : Char) (t : PyStr) (h : c ∈ pyStrip t) : c ∈ t := by
  unfold pyStrip at h
  rw [List.mem_reverse] at h
  have h2 := (List.dropWhile_sublist _).subset h
  rw [List.mem_reverse] at h2
  exact (List.dropWhile_sublist _).subset h2

/-- A character absent from a string is not found by `pyFind`. -/
theorem pyFind_eq_none_of_not_mem (s : PyStr) (c : Char) (h : c ∉ s) : pyFind s c = none := by
  unfold pyFind
  rw [List.findIdx?_eq_none_iff]
  intro x hx
  by_cases hxc : x = c
  · exact absurd (hxc ▸ hx) h
  · simpa using hxc

/-- The fallback scan returns one of five concrete strings. -/
theorem fallback_cases (s : PyStr) :
    _fallback_parsing s = s2l ("Loss Run") ∨ _fallback_parsing s = s2l ("ACORD form") ∨
    _fallback_parsing s = s2l ("Supplemental forms") ∨ _fallback_parsing s = s2l ("Mod sheet") ∨
    _fallback_parsing s = s2l ("Unknown") := by
  unfold _fallback_parsing
  dsimp only
  split
  · exact Or.inl rfl
  · split
    · exact Or.inr (Or.inl rfl)
    · split
      · exact Or.inr (Or.inr (Or.inl rfl))
      · split
        · exact Or.inr (Or.inr (Or.inr (Or.inl rfl)))
        · exact Or.inr (Or.inr (Or.inr (Or.inr rfl)))

/-- Validating a fallback result against `DOCUMENT_TYPES` returns it
unchanged: the four category strings validate to themselves and
`"Unknown"` normalizes to `"Unknown"`. -/
theorem validate_fallback (s : PyStr) :
    (if DOCUMENT_TYPES.contains (pyStrip (_fallback_parsing s)) then pyStrip (_fallback_parsing s)
     else unknownLabel) = _fallback_parsing s := by
  rcases fallback_cases s with h | h | h | h | h <;> rw [h] <;> decide

/-- When the stripped text lacks a `{` or lacks a `}`, the candidate is
the fallback scan's output. -/
theorem candidate_eq_fallback (t : PyStr)
    (h : pyFind t lbrace = none ∨ pyRfind t rbrace = none) :
    candidateOfResponse t = some (_fallback_parsing t) := by
  unfold candidateOfResponse
  rcases h with h | h
  · rw [h]
  · rw [h]; cases pyFind t lbrace <;> rfl

/-- When the stripped text lacks a `{` or lacks a `}`, the interpreter
returns exactly the fallback scan's output. -/
theorem parse_eq_fallback (t f : PyStr)
    (h : pyFind (pyStrip t) lbrace = none ∨ pyRfind (pyStrip t) rbrace = none) :
    _parse_classification_response t f = _fallback_parsing (pyStrip t) := by
  unfold _parse_classification_response
  dsimp only
  rw [candidate_eq_fallback (pyStrip t) h]
  exact validate_fallback (pyStrip t)

/-- When both braces are present but the brace-delimited slice does not
parse, the exception handler yields `"Unknown"` (the fallback scan is
not consulted). -/
theorem parse_eq_unknown_of_json_fail (t f : PyStr) (s e : Nat)
    (hf : pyFind (pyStrip t) lbrace = some s) (hr : pyRfind (pyStrip t) rbrace = some e)
    (hj : json_loads (pySlice (pyStrip t) s (e + 1)) = none) :
    _parse_classification_response t f = unknownLabel := by
  unfold _parse_classification_response candidateOfResponse
  dsimp only
  rw [hf, hr]
  dsimp only
  rw [hj]

/-- The interpreter's output is always one of the five labels. -/
theorem parse_mem_five (t f : PyStr) : _parse_classification_response t f ∈ fiveLabels := by
  unfold _parse_classification_response
  dsimp only
  cases candidateOfResponse (pyStrip t) with
  | none => decide
  | some cand =>
    dsimp only
    by_cases h : DOCUMENT_TYPES.contains (pyStrip cand) = true
    · rw [if_pos h]
      exact List.mem_append_left _ (List.mem_of_elem_eq_true h)
    · rw [if_neg h]
      decide

/-- If the candidate extracted by the `try` block is not one of the four
category strings after stripping, the interpreter returns `"Unknown"`. -/
theorem parse_invalid_candidate_unknown (t f cand : PyStr)
    (hc : candidateOfResponse (pyStrip t) = some cand)
    (hn : pyStrip cand ∉ DOCUMENT_TYPES) :
    _parse_classification_response t f = unknownLabel := by
  unfold _parse_classification_response
  dsimp only
  rw [hc]
  dsimp only
  have : DOCUMENT_TYPES.contains (pyStrip cand) ≠ true := by
    intro h
    exact hn (List.mem_of_elem_eq_true h)
  rw [if_neg this]

/-! Helper lemmas about the content adapter. -/

/-- Every non-PDF branch of Cases 2-5 places only plain strings or the
raw bytes into the contents list. -/
theorem prepareCase_nonpdf_parts (env : AdapterEnv) (file_content : PyBytes)
    (filename mime_type prompt : PyStr) (cs : List GeminiPart)
    (hm : mime_type ≠ pdfMime)
    (hc : prepareCase env file_content filename mime_type prompt = .ok cs) :
    ∀ p ∈ cs, p.isText = true ∨ p = .blob file_content := by
  unfold prepareCase at hc
  rw [if_neg hm] at hc
  split at hc
  · split at hc
    · split at hc
      · cases hc
        intro p hp
        fin_cases hp <;> simp [GeminiPart.isText]
      · cases hc
    · cases hc
      intro p hp
      fin_cases hp <;> simp [GeminiPart.isText]
  · split at hc
    · split at hc
      · cases hc
        intro p hp
        fin_cases hp <;> simp [GeminiPart.isText]
      · cases hc
    · split at hc
      · split at hc
        · cases hc
          intro p hp
          fin_cases hp <;> simp [GeminiPart.isText]
        · cases hc
          intro p hp
          fin_cases hp <;> simp [GeminiPart.isText]
      · cases hc
        intro p hp
        fin_cases hp <;> simp [GeminiPart.isText]

/-- Parts that are plain strings or raw bytes have no `read`
attribute. -/
theorem no_read_attr_of_parts (file_content : PyBytes) (cs : List GeminiPart)
    (h : ∀ p ∈ cs, p.isText = true ∨ p = .blob file_content) :
    cs.any hasReadAttr = false := by
  rw [List.any_eq_false]
  intro p hp
  rcases h p hp with ht | hb
  · cases p <;> simp_all [GeminiPart.isText, hasReadAttr]
  · subst hb; simp [hasReadAttr]

/-- For non-PDF types the final safety check passes an attribute-free
list through unchanged. -/
theorem finalSafetyCheck_passes (mime_type : PyStr) (cs : List GeminiPart)
    (hm : mime_type ≠ pdfMime) (h : cs.any hasReadAttr = false) :
    finalSafetyCheck mime_type cs = .ok cs := by
  unfold finalSafetyCheck
  rw [if_neg hm, h]
  rfl

/-- For non-PDF types the `try` block's outcome is exactly the branch
dispatch's outcome: the final safety check never fires. -/
theorem prepareInner_eq_prepareCase (env : AdapterEnv) (file_content : PyBytes)
    (filename mime_type prompt : PyStr) (hm : mime_type ≠ pdfMime) :
    prepareInner env file_content filename mime_type prompt
      = prepareCase env file_content filename mime_type prompt := by
  unfold prepareInner
  cases hc : prepareCase env file_content filename mime_type prompt with
  | error msg => rfl
  | ok cs =>
    exact finalSafetyCheck_passes mime_type cs hm
      (no_read_attr_of_parts file_content cs
        (prepareCase_nonpdf_parts env file_content filename mime_type prompt cs hm hc))

/-- Every branch of the dispatch produces exactly two parts. -/
theorem prepareCase_ok_length (env : AdapterEnv) (file_content : PyBytes)
    (filename mime_type prompt : PyStr) (cs : List GeminiPart)
    (hc : prepareCase env file_content filename mime_type prompt = .ok cs) :
    cs.length = 2 := by
  unfold prepareCase at hc
  split at hc
  · split at hc
    · cases hc; rfl
    · cases hc
  · split at hc
    · split at hc
      · split at hc
        · cases hc; rfl
        · cases hc
      · cases hc; rfl
    · split at hc
      · split at hc
        · cases hc; rfl
        · cases hc
      · split at hc
        · split at hc
          · cases hc; rfl
          · cases hc; rfl
        · cases hc; rfl

/-- The final safety check either raises or returns its input list. -/
theorem finalSafetyCheck_ok_eq (mime_type : PyStr) (cs cs2 : List GeminiPart)
    (h : finalSafetyCheck mime_type cs = .ok cs2) : cs2 = cs := by
  unfold finalSafetyCheck at h
  split at h
  · cases h; rfl
  · split at h
    · cases h
    · cases h; rfl

/-- The adapter always returns a two-part payload, on the success path
as well as through the emergency fallback. -/
theorem prepare_length (env : AdapterEnv) (file_content : PyBytes)
    (filename mime_type prompt : PyStr) :
    (_prepare_gemini_content env file_content filename mime_type prompt).length = 2 := by
  unfold _prepare_gemini_content
  cases hi : prepareInner env file_content filename mime_type prompt with
  | error msg => rfl
  | ok cs =>
    unfold prepareInner at hi
    dsimp only
    cases hc : prepareCase env file_content filename mime_type prompt with
    | error msg => rw [hc] at hi; cases hi
    | ok cs0 =>
      rw [hc] at hi
      have he := finalSafetyCheck_ok_eq mime_type cs0 cs hi
      subst he
      exact prepareCase_ok_length env file_content filename mime_type prompt cs hc







/-- The whole adapter, error path included, places only plain strings or
the raw bytes into a non-PDF payload. -/
theorem prepare_nonpdf_parts (env : AdapterEnv) (file_content : PyBytes)
    (filename mime_type prompt : PyStr) (hm : mime_type ≠ pdfMime) :
    ∀ p ∈ _prepare_gemini_content env file_content filename mime_type prompt,
      p.isText = true ∨ p = .blob file_content := by
  unfold _prepare_gemini_content
  rw [prepareInner_eq_prepareCase env file_content filename mime_type prompt hm]
  cases hc : prepareCase env file_content filename mime_type prompt with
  | error msg =>
    intro p hp
    unfold errorFallbackPayload at hp
    fin_cases hp <;> simp [GeminiPart.isText]
  | ok cs =>
    exact prepareCase_nonpdf_parts env file_content filename mime_type prompt cs hm hc

/-! Claim theorems. -/

/-- C1 counterexample: an input declared `application/octet-stream`
(the unknown-type fallback, Case 5) produces a payload whose second
part is the raw bytes — a binary part, not text — so the claimed
invariant "zero binary-attachment parts on every non-PDF branch" fails
on the code. -/
theorem c1_nonpdf_binary_part_cex :
    _get_content_type (s2l ("scan.bin")) ≠ pdfMime ∧
    _prepare_gemini_content sampleAdapterEnv [0, 159] (s2l ("scan.bin"))
        (_get_content_type (s2l ("scan.bin"))) (s2l ("P"))
      = [.text (s2l ("P")), .blob [0, 159]] ∧
    (GeminiPart.blob [0, 159]).isText = false := by
  refine ⟨by decide, by decide, rfl⟩

/-- C1 (amended): for every declared type other than PDF, each part of
the produced payload is either plain text or the raw input bytes
attached as an opaque binary part; the raw-bytes part occurs exactly on
the spreadsheet import-failure, text decode-failure and unknown-type
fallback branches, so the payload is not always binary-free. -/
theorem c1_nonpdf_parts_text_or_raw_bytes (env : AdapterEnv) (file_content : PyBytes)
    (filename mime_type prompt : PyStr) (hm : mime_type ≠ pdfMime) :
    ∀ p ∈ _prepare_gemini_content env file_content filename mime_type prompt,
      p.isText = true ∨ p = .blob file_content :=
  prepare_nonpdf_parts env file_content filename mime_type prompt hm

/-- C1 witness: the amended statement applied to the concrete
octet-stream input of the counterexample. -/
theorem c1_nonpdf_parts_text_or_raw_bytes_witness :
    (GeminiPart.blob [0, 159]).isText = true ∨ GeminiPart.blob [0, 159] = GeminiPart.blob [0, 159] :=
  c1_nonpdf_parts_text_or_raw_bytes sampleAdapterEnv [0, 159] (s2l ("scan.bin"))
    (s2l ("application/octet-stream")) (s2l ("P")) (by decide)
    (GeminiPart.blob [0, 159]) (by decide)

/-- C2 counterexample: the model output displayed by the prompt template
itself ends its single member with a trailing comma; `json.loads`
rejects that slice, the exception handler fires, and the interpreter
returns `"Unknown"` instead of the category. -/
theorem c2_template_example_roundtrip_fails :
    _parse_classification_response (prompt_example_output (s2l ("Loss Run"))) (s2l ("X"))
      = s2l ("Unknown") ∧
    s2l ("Unknown") ≠ s2l ("Loss Run") := by
  exact ⟨by decide, by decide⟩

/-- C2 (amended): the prompt built for any filename displays the
exact-format example (placeholder form) verbatim, and the round trip
holds for the well-formed JSON object of the documented shape without
the template's trailing comma: for each of the four category strings
`c`, the interpreter maps `{"classification": "<c>"}` back to `c`
losslessly.  The example exactly as displayed (with its trailing
comma) instead yields `"Unknown"`. -/
theorem c2_roundtrip_strict_json :
    (∀ f : PyStr, ∃ pre post : PyStr,
        _build_classification_prompt f
          = pre ++ prompt_example_output (s2l ("ONE_OF_THE_FOUR_TYPES")) ++ post) ∧
    (∀ c ∈ DOCUMENT_TYPES, ∀ f : PyStr,
        _parse_classification_response
          ((s2l ("\x7b\"classification\": \"")) ++ c ++ (s2l ("\"\x7d"))) f = c) := by
  constructor
  · intro f
    refine ⟨promptPre ++ f ++ exampleSufA, exampleSufB, ?_⟩
    unfold _build_classification_prompt
    rw [promptSuf_decomp]
    simp [List.append_assoc]
  · intro c hc f
    fin_cases hc <;> rfl

/-- C2 witness: the amended round trip at category `Loss Run` and
filename `X`. -/
theorem c2_roundtrip_strict_json_witness :
    _parse_classification_response
      ((s2l ("\x7b\"classification\": \"")) ++ (s2l ("Loss Run")) ++ (s2l ("\"\x7d"))) (s2l ("X"))
      = s2l ("Loss Run") :=
  c2_roundtrip_strict_json.2 (s2l ("Loss Run")) (by decide) (s2l ("X"))

/-- C3 counterexample: a text containing a brace pair whose slice is not
valid JSON and containing the keyword `loss` yields `"Unknown"` — the
fallback keyword scan is not applied, contradicting the claim that it
would yield the keyword's category. -/
theorem c3_unparseable_braces_skip_fallback_cex :
    containsAnyWord lossRunWords (pyLower (pyStrip (s2l ("\x7boops\x7d loss")))) = true ∧
    _parse_classification_response (s2l ("\x7boops\x7d loss")) (s2l ("X")) = s2l ("Unknown") ∧
    s2l ("Unknown") ≠ s2l ("Loss Run") := by
  exact ⟨by decide, by decide, by decide⟩

/-- C3 (amended): the fallback keyword scan runs exactly when the
stripped text lacks a `{` or lacks a `}`; when both braces are present
but the brace-delimited slice does not parse, the exception handler
returns `"Unknown"` without consulting the keyword scan. -/
theorem c3_fallback_scan_scope :
    (∀ t f : PyStr,
        (pyFind (pyStrip t) lbrace = none ∨ pyRfind (pyStrip t) rbrace = none) →
        _parse_classification_response t f = _fallback_parsing (pyStrip t)) ∧
    (∀ t f : PyStr, ∀ s e : Nat,
        pyFind (pyStrip t) lbrace = some s → pyRfind (pyStrip t) rbrace = some e →
        json_loads (pySlice (pyStrip t) s (e + 1)) = none →
        _parse_classification_response t f = unknownLabel) :=
  ⟨parse_eq_fallback, parse_eq_unknown_of_json_fail⟩

/-- C3 witness: both parts of the amended statement at concrete
inputs — a brace-free text falls through to the keyword scan, and a
brace-enclosed malformed slice yields `"Unknown"`. -/
theorem c3_fallback_scan_scope_witness :
    _parse_classification_response (s2l ("no json here, loss run")) (s2l ("X"))
      = _fallback_parsing (pyStrip (s2l ("no json here, loss run"))) ∧
    _parse_classification_response (s2l ("\x7bnot json\x7d")) (s2l ("X")) = unknownLabel :=
  ⟨c3_fallback_scan_scope.1 (s2l ("no json here, loss run")) (s2l ("X")) (Or.inl (by decide)),
   c3_fallback_scan_scope.2 (s2l ("\x7bnot json\x7d")) (s2l ("X")) 0 9 (by decide) (by decide)
     rfl⟩

/-- C4: for a declared CSV whose bytes do not decode as UTF-8, the
branch raises (`Except.error`, no raw-bytes fallback inside the
branch); the exception surfaces as the emergency error-text payload,
every part of which is text — the raw bytes are never attached. -/
theorem c4_csv_decode_failure_hard_error (env : AdapterEnv) (file_content : PyBytes)
    (filename prompt : PyStr) (hd : utf8Decode file_content = none) :
    prepareCase env file_content filename csvMime prompt = .error unicodeDecodeErrorMsg ∧
    _prepare_gemini_content env file_content filename csvMime prompt
      = errorFallbackPayload filename unicodeDecodeErrorMsg prompt ∧
    ∀ p ∈ _prepare_gemini_content env file_content filename csvMime prompt, p.isText = true := by
  have h1 : prepareCase env file_content filename csvMime prompt = .error unicodeDecodeErrorMsg := by
    unfold prepareCase
    rw [if_neg (by decide), if_neg (by decide), if_pos rfl, hd]
  have h2 : _prepare_gemini_content env file_content filename csvMime prompt
      = errorFallbackPayload filename unicodeDecodeErrorMsg prompt := by
    unfold _prepare_gemini_content prepareInner
    rw [h1]
  refine ⟨h1, h2, ?_⟩
  rw [h2]
  intro p hp
  unfold errorFallbackPayload at hp
  fin_cases hp <;> rfl

/-- C4 witness: the hard-error behaviour at the concrete undecodable
byte `0xFF`. -/
theorem c4_csv_decode_failure_hard_error_witness :
    _prepare_gemini_content sampleAdapterEnv [255] (s2l ("data.csv")) csvMime (s2l ("P"))
      = errorFallbackPayload (s2l ("data.csv")) unicodeDecodeErrorMsg (s2l ("P")) :=
  (c4_csv_decode_failure_hard_error sampleAdapterEnv [255] (s2l ("data.csv")) (s2l ("P"))
    (by decide)).2.1

/-- C5: the interpreter is a total function (every raisable step is
absorbed by the exception handler into `"Unknown"`), its result is
always one of the five labels, and any extracted candidate that is not
one of the four category strings after stripping — the empty string and
hallucinated categories included — normalizes to `"Unknown"`. -/
theorem c5_parse_total_enum_normalize :
    (∀ t f : PyStr, _parse_classification_response t f ∈ fiveLabels) ∧
    (∀ t f cand : PyStr, candidateOfResponse (pyStrip t) = some cand →
        pyStrip cand ∉ DOCUMENT_TYPES → _parse_classification_response t f = unknownLabel) :=
  ⟨parse_mem_five, parse_invalid_candidate_unknown⟩

/-- C5 witness: a hallucinated category inside well-formed JSON
normalizes to `"Unknown"`, and a sample output is in the enum. -/
theorem c5_parse_total_enum_normalize_witness :
    _parse_classification_response (s2l ("\x7b\"classification\": \"Invoice\"\x7d")) (s2l ("X"))
      = unknownLabel ∧
    _parse_classification_response [] (s2l ("X")) ∈ fiveLabels :=
  ⟨c5_parse_total_enum_normalize.2 (s2l ("\x7b\"classification\": \"Invoice\"\x7d")) (s2l ("X"))
     (s2l ("Invoice")) (by decide) (by decide),
   c5_parse_total_enum_normalize.1 [] (s2l ("X"))⟩

/-- C6: the keyword groups are checked in strict priority order with
the first matching group winning: the concrete no-JSON text about a
Loss Run yields `Loss Run` (group (a) fires before the `form` keyword
could), and any no-JSON text containing both `form` and `mod` as
substrings but no loss-group keyword yields `ACORD form` (group (b)
fires before group (d)). -/
theorem c6_fallback_priority_order :
    (_parse_classification_response (s2l ("I think this is a Loss Run document, yes.")) (s2l ("X"))
      = s2l ("Loss Run")) ∧
    (∀ t f : PyStr,
        (pyFind (pyStrip t) lbrace = none ∨ pyRfind (pyStrip t) rbrace = none) →
        containsAnyWord lossRunWords (pyLower (pyStrip t)) = false →
        isSubstring (s2l ("form")) (pyLower (pyStrip t)) = true →
        isSubstring (s2l ("mod")) (pyLower (pyStrip t)) = true →
        _parse_classification_response t f = s2l ("ACORD form")) := by
  constructor
  · decide
  · intro t f hb hl hform _hmod
    rw [parse_eq_fallback t f hb]
    have hacord : containsAnyWord acordWords (pyLower (pyStrip t)) = true := by
      unfold containsAnyWord
      rw [List.any_eq_true]
      exact ⟨s2l ("form"), by decide, hform⟩
    unfold _fallback_parsing
    dsimp only
    rw [hl, hacord]
    rfl

/-- C6 witness: the priority statement at a concrete text containing
both `form` and `mod` but no loss-group keyword. -/
theorem c6_fallback_priority_order_witness :
    _parse_classification_response (s2l ("Fill this mod form")) (s2l ("X")) = s2l ("ACORD form") :=
  c6_fallback_priority_order.2 (s2l ("Fill this mod form")) (s2l ("X")) (Or.inl (by decide))
    (by decide) (by decide) (by decide)

/-- C7: the adapter always returns a payload (never the empty list, in
fact always exactly two parts), and whenever the `try` block raises,
the returned payload is exactly the emergency fallback
`[promptText, Text("Error processing file <name>: <message>")]`. -/
theorem c7_adapter_never_raises_emergency_payload :
    (∀ (env : AdapterEnv) (file_content : PyBytes) (filename mime_type prompt : PyStr),
        _prepare_gemini_content env file_content filename mime_type prompt ≠ []) ∧
    (∀ (env : AdapterEnv) (file_content : PyBytes) (filename mime_type prompt msg : PyStr),
        prepareInner env file_content filename mime_type prompt = .error msg →
        _prepare_gemini_content env file_content filename mime_type prompt
          = [.text prompt,
             .text ((s2l ("Error processing file ")) ++ filename ++ (s2l (": ")) ++ msg)]) := by
  constructor
  · intro env fc fn mt pr h
    have hl := prepare_length env fc fn mt pr
    rw [h] at hl
    simp at hl
  · intro env fc fn mt pr msg h
    unfold _prepare_gemini_content
    rw [h]
    rfl

/-- C7 witness: the emergency payload at the concrete undecodable CSV
input, plus nonemptiness there. -/
theorem c7_adapter_never_raises_emergency_payload_witness :
    _prepare_gemini_content sampleAdapterEnv [255] (s2l ("data.csv")) csvMime (s2l ("P")) ≠ [] ∧
    _prepare_gemini_content sampleAdapterEnv [255] (s2l ("data.csv")) csvMime (s2l ("P"))
      = [.text (s2l ("P")),
         .text ((s2l ("Error processing file ")) ++ (s2l ("data.csv")) ++ (s2l (": "))
           ++ unicodeDecodeErrorMsg)] :=
  ⟨c7_adapter_never_raises_emergency_payload.1 sampleAdapterEnv [255] (s2l ("data.csv")) csvMime
     (s2l ("P")),
   c7_adapter_never_raises_emergency_payload.2 sampleAdapterEnv [255] (s2l ("data.csv")) csvMime
     (s2l ("P")) unicodeDecodeErrorMsg rfl⟩

/-- C9 (implicit claim, confirmed): for every non-PDF input, the branch
dispatch places only plain strings or raw bytes into the contents list;
none of those has a `read` attribute, so the `hasattr(item, "read")`
test never fires, the `ValueError` of the final safety check is never
raised, and the check passes every payload — raw-bytes fallback
payloads included — through unchanged. -/
theorem c9_safety_check_unreachable :
    (∀ (env : AdapterEnv) (file_content : PyBytes) (filename mime_type prompt : PyStr)
        (cs : List GeminiPart), mime_type ≠ pdfMime →
        prepareCase env file_content filename mime_type prompt = .ok cs →
        cs.any hasReadAttr = false ∧ finalSafetyCheck mime_type cs = .ok cs) ∧
    (∀ (env : AdapterEnv) (file_content : PyBytes) (filename mime_type prompt : PyStr),
        mime_type ≠ pdfMime →
        prepareInner env file_content filename mime_type prompt
          = prepareCase env file_content filename mime_type prompt) := by
  constructor
  · intro env fc fn mt pr cs hm hc
    have hp := prepareCase_nonpdf_parts env fc fn mt pr cs hm hc
    have ha := no_read_attr_of_parts fc cs hp
    exact ⟨ha, finalSafetyCheck_passes mt cs hm ha⟩
  · intro env fc fn mt pr hm
    exact prepareInner_eq_prepareCase env fc fn mt pr hm

/-- C9 witness: on a concrete octet-stream input whose payload contains
a raw-bytes part, the safety check passes the payload through
undetected. -/
theorem c9_safety_check_unreachable_witness :
    prepareInner sampleAdapterEnv [0] (s2l ("a.bin")) (s2l ("application/octet-stream")) (s2l ("P"))
      = prepareCase sampleAdapterEnv [0] (s2l ("a.bin")) (s2l ("application/octet-stream"))
          (s2l ("P")) ∧
    prepareCase sampleAdapterEnv [0] (s2l ("a.bin")) (s2l ("application/octet-stream")) (s2l ("P"))
      = .ok [.text (s2l ("P")), .blob [0]] :=
  ⟨c9_safety_check_unreachable.2 sampleAdapterEnv [0] (s2l ("a.bin"))
     (s2l ("application/octet-stream")) (s2l ("P")) (by decide), rfl⟩

/-- C10 (implicit claim, confirmed): on texts without a `{` the
interpreter runs the keyword scan, which tests substring containment on
the lowercased text rather than whole words — `glossary` matches `loss`
and yields `Loss Run`, `information` matches `form` and yields
`ACORD form`, with the priority order deciding among groups. -/
theorem c10_fallback_substring_matching :
    (∀ t f : PyStr, lbrace ∉ t →
        _parse_classification_response t f = _fallback_parsing (pyStrip t)) ∧
    (_parse_classification_response (s2l ("see the glossary")) (s2l ("X")) = s2l ("Loss Run")) ∧
    (_parse_classification_response (s2l ("further information")) (s2l ("X"))
      = s2l ("ACORD form")) := by
  refine ⟨?_, by decide, by decide⟩
  intro t f h
  apply parse_eq_fallback
  left
  apply pyFind_eq_none_of_not_mem
  intro hmem
  exact h (mem_of_mem_pyStrip lbrace t hmem)

/-- C10 witness: the scan-equivalence applied to a concrete brace-free
text whose word `glossary` contains the substring `loss`. -/
theorem c10_fallback_substring_matching_witness :
    _parse_classification_response (s2l ("see the glossary")) (s2l ("X"))
      = _fallback_parsing (pyStrip (s2l ("see the glossary"))) :=
  c10_fallback_substring_matching.1 (s2l ("see the glossary")) (s2l ("X")) (by decide)
